import Mathlib

/-
Verification of the JSONL flow writer (scripts/mitm_jsonl_writer.py): a
task-switchable append-only output stream for observed HTTP flows, plus a
small HTTP control API. The Python class JSONLFlowWriter is embedded as a
pure state machine: every method becomes a function from a WriterState (and
an Env deciding which filesystem operations succeed) to a new WriterState.
A Python exception inside a method is modelled by returning the mutated
state reached so far together with a false success flag, exactly as an
exception leaves earlier attribute assignments in place; a caught exception
is modelled by the catching branch. The lock makes each method atomic, so
methods are modelled as atomic state transformers.
-/

namespace MitmJsonlWriter

/-- A JSON value as it appears in request and response bodies and in flow
records. Numeric values are abstracted to integers: no claim depends on
float semantics, only on which fields are present and on string values. -/
inductive JVal where
  | jnull : JVal
  | jstr : String → JVal
  | jnum : Int → JVal
deriving DecidableEq, Repr

/-- A Python file object as the writer sees it: the path it was opened at
and whether it is still open. Writing to a closed file raises ValueError. -/
structure Handle where
  path : String
  isOpen : Bool
deriving DecidableEq, Repr

/-- One serialized JSONL line, kept structured: the ordered key-value pairs
that json.dumps would emit (Python dicts preserve insertion order). -/
abbrev Record := List (String × JVal)

/-- The filesystem content: each path maps to the list of records appended
to the file at that path (a missing file is the empty list; opening in
append mode creates it without changing content). -/
abbrev FS := String → List Record

/-- The environment decides which filesystem side effects succeed, keyed by
the file path the writer passes: mkdir_ok p is whether creating the parent
directory of p succeeds, open_ok p whether opening p in append mode
succeeds, write_ok p whether a write-and-flush to the handle at p succeeds. -/
structure Env where
  mkdir_ok : String → Bool
  open_ok : String → Bool
  write_ok : String → Bool

/-- The environment in which every filesystem operation succeeds. -/
def okEnv : Env :=
  { mkdir_ok := fun _ => true, open_ok := fun _ => true, write_ok := fun _ => true }

/-- The mutable attributes of JSONLFlowWriter (source lines 22-34):
current_task_id, current_file_path, file, plus the filesystem the writer
appends to. The lock is represented by the atomicity of each transformer. -/
structure WriterState where
  current_task_id : Option String
  current_file_path : Option String
  file : Option Handle
  fs : FS

/-- The default output path, Path("/results/flows.jsonl") (source line 24). -/
def default_output_path : String := "/results/flows.jsonl"

/-- Embedding of JSONLFlowWriter._open_file (source lines 38-54): close the
old file best-effort, ensure the directory exists, open the new file in
append mode, record the new path. A mkdir or open failure raises after the
old file is already closed, leaving file pointing at the closed old handle
and current_file_path unchanged; the Bool is false exactly when the method
raises. Opening in append mode never changes file content. -/
def _open_file (env : Env) (s : WriterState) (file_path : String) : WriterState × Bool :=
  let s1 : WriterState := { s with file := s.file.map (fun h => { h with isOpen := false }) }
  if env.mkdir_ok file_path then
    if env.open_ok file_path then
      ({ s1 with file := some { path := file_path, isOpen := true },
                 current_file_path := some file_path }, true)
    else (s1, false)
  else (s1, false)

/-- The task output path f-string of source line 62. -/
def task_path (task_id : String) : String := "/results/" ++ task_id ++ "/flows.jsonl"

/-- Embedding of set_output_task (source lines 56-64): under the lock, set
current_task_id to the given id, then open the task file. The id is stored
before the open is attempted, with no validation of the id. -/
def set_output_task (env : Env) (s : WriterState) (task_id : String) : WriterState × Bool :=
  let s1 : WriterState := { s with current_task_id := some task_id }
  _open_file env s1 (task_path task_id)

/-- Embedding of clear_output_task (source lines 66-74): under the lock,
set current_task_id to None, then reopen the default file. -/
def clear_output_task (env : Env) (s : WriterState) : WriterState × Bool :=
  let s1 : WriterState := { s with current_task_id := none }
  _open_file env s1 default_output_path

/-- Embedding of get_current_task (source lines 76-84): the snapshot of
task_id and output_path returned under the lock. -/
def get_current_task (s : WriterState) : Option String × Option String :=
  (s.current_task_id, s.current_file_path)

/-- Python truthiness of the Optional[str] current_task_id: None and the
empty string are falsy (source lines 107 and 154 test with a bare if). -/
def truthy : Option String → Bool
  | none => false
  | some t => !(t == "")

/-- The read-only accessors of flow.request used by the response callback
(source lines 97-103). The float timestamp is abstracted to an integer. -/
structure Flow where
  timestamp_start : Int
  method : String
  scheme : String
  host : String
  port : Int
  path : String
  pretty_url : String

/-- The record dict built by the response callback (source lines 96-108):
seven fixed fields in insertion order, then task_id appended only when the
captured current_task is truthy. -/
def buildRecord (current_task : Option String) (flow : Flow) : Record :=
  let record : Record :=
    [("ts", JVal.jnum flow.timestamp_start),
     ("method", JVal.jstr flow.method),
     ("scheme", JVal.jstr flow.scheme),
     ("host", JVal.jstr flow.host),
     ("port", JVal.jnum flow.port),
     ("path", JVal.jstr flow.path),
     ("url", JVal.jstr flow.pretty_url)]
  match current_task with
  | some t => if t = "" then record else record ++ [("task_id", JVal.jstr t)]
  | none => record

/-- Embedding of the response callback (source lines 86-120): snapshot
current_task_id and file under the lock, build the record, write one JSONL
line and flush. The whole body is wrapped in try-except, so every failure
path (file is None, file already closed, write or flush raising) is caught
and only logged: the function returns false and drops the record instead
of propagating. True means the record was appended to the file at the
handle path. -/
def response (env : Env) (s : WriterState) (flow : Flow) : WriterState × Bool :=
  let current_task := s.current_task_id
  let file_handle := s.file
  let record := buildRecord current_task flow
  match file_handle with
  | none => (s, false)
  | some h =>
    if h.isOpen then
      if env.write_ok h.path then
        ({ s with fs := fun p => if p = h.path then s.fs h.path ++ [record] else s.fs p }, true)
      else (s, false)
    else (s, false)

/-- Embedding of JSONLFlowWriter.__init__ (source lines 22-34): no task, no
path, no file, empty filesystem, then _open_file on the default path. -/
def initWriter (env : Env) : WriterState × Bool :=
  _open_file env
    { current_task_id := none, current_file_path := none, file := none, fs := fun _ => [] }
    default_output_path

/-- The writer state right after a successful startup. -/
def initState : WriterState := (initWriter okEnv).1

/-- An HTTP response of the control API: status code and JSON body (an
empty list when no body is written). -/
structure HttpResponse where
  status : Nat
  body : List (String × JVal)
deriving DecidableEq, Repr

/-- Python dict.get on a parsed JSON object body. Bodies are modelled as
string-valued association lists: the control API contract types task_id as
a string, and the claims only exercise missing, empty and non-empty ids. -/
def jsonGet (data : List (String × String)) (key : String) : Option String :=
  (data.find? (fun kv => kv.1 == key)).map Prod.snd

/-- Embedding of TaskOutputHandler.do_POST (source lines 146-180). On
/set_output a falsy task_id (missing or empty) yields 400 with the error
body and no registry call; a truthy one calls set_output_task and yields
200 on success. An exception escaping the registry call is caught by the
outer try-except and answered with a bare 500, the partially mutated
registry state remaining in place. /clear_output calls clear_output_task
the same way; any other path yields a bare 404. -/
def do_POST (env : Env) (s : WriterState) (path : String) (data : List (String × String)) :
    WriterState × HttpResponse :=
  if path = "/set_output" then
    match jsonGet data "task_id" with
    | some t =>
      if t = "" then
        (s, { status := 400, body := [("error", JVal.jstr "task_id required")] })
      else
        let r := set_output_task env s t
        if r.2 then
          (r.1, { status := 200, body := [("status", JVal.jstr "ok"), ("task_id", JVal.jstr t)] })
        else (r.1, { status := 500, body := [] })
    | none => (s, { status := 400, body := [("error", JVal.jstr "task_id required")] })
  else if path = "/clear_output" then
    let r := clear_output_task env s
    if r.2 then (r.1, { status := 200, body := [("status", JVal.jstr "ok")] })
    else (r.1, { status := 500, body := [] })
  else (s, { status := 404, body := [] })

/-- A nullable string as serialized into the current_task response body. -/
def optJ : Option String → JVal
  | none => JVal.jnull
  | some t => JVal.jstr t

/-- Embedding of TaskOutputHandler.do_GET (source lines 182-196):
/current_task returns the snapshot as JSON with a null task_id when none
is set; any other path yields a bare 404. -/
def do_GET (s : WriterState) (path : String) : WriterState × HttpResponse :=
  if path = "/current_task" then
    (s, { status := 200,
          body := [("task_id", optJ s.current_task_id),
                   ("output_path", optJ s.current_file_path)] })
  else (s, { status := 404, body := [] })

/-- Embedding of the method dispatch of http.server.BaseHTTPRequestHandler
(the standard library base class of TaskOutputHandler): a request is routed
to do_POST or do_GET, and a request whose method has no matching handler on
the class is answered with HTTP 501 Unsupported method. -/
def handle_request (env : Env) (s : WriterState) (method path : String)
    (data : List (String × String)) : WriterState × HttpResponse :=
  if method = "POST" then do_POST env s path data
  else if method = "GET" then do_GET s path
  else (s, { status := 501, body := [] })

/-- The output path implied by a task identifier: the task file when a task
is set, the default file when none is. -/
def impliedPath : Option String → String
  | none => default_output_path
  | some t => task_path t

/-- The router state invariant claimed by the spec: the installed output
path is exactly the path implied by the current task identifier. -/
def StateInv (s : WriterState) : Prop :=
  s.current_file_path = some (impliedPath s.current_task_id)

/-- An environment where opening the file of task t1 fails and everything
else succeeds. -/
def failOpenEnv : Env :=
  { mkdir_ok := fun _ => true, open_ok := fun p => !(p == task_path "t1"),
    write_ok := fun _ => true }

/-- An environment where every write fails. -/
def failWriteEnv : Env :=
  { mkdir_ok := fun _ => true, open_ok := fun _ => true, write_ok := fun _ => false }

/-- An environment where opening the default file fails and everything else
succeeds. -/
def failDefaultEnv : Env :=
  { mkdir_ok := fun _ => true, open_ok := fun p => !(p == default_output_path),
    write_ok := fun _ => true }

/-- A sample observed flow used to instantiate witnesses. -/
def sampleFlow : Flow :=
  { timestamp_start := 1700000000, method := "GET", scheme := "http",
    host := "a.example", port := 80, path := "/x", pretty_url := "http://a.example/x" }

end MitmJsonlWriter

open MitmJsonlWriter

/-- Helper: when _open_file fails, the state it leaves behind is the input
state with the old handle closed: the old file was already closed before
the failing mkdir or open, and current_file_path was never updated. -/
theorem open_file_fail_state (env : Env) (s : WriterState) (p : String)
    (hfail : (_open_file env s p).2 = false) :
    (_open_file env s p).1 =
      { s with file := s.file.map (fun h => { h with isOpen := false }) } := by
  unfold _open_file at hfail ⊢
  dsimp only at hfail ⊢
  cases hm : env.mkdir_ok p
  · simp [hm]
  · cases ho : env.open_ok p
    · simp [hm, ho]
    · rw [hm, ho] at hfail
      simp at hfail

/-- Helper: when _open_file succeeds, the new state carries an open handle
at the requested path and records that path in current_file_path. -/
theorem open_file_ok_state (env : Env) (s : WriterState) (p : String)
    (hok : (_open_file env s p).2 = true) :
    (_open_file env s p).1 =
      { s with file := some { path := p, isOpen := true },
               current_file_path := some p } := by
  unfold _open_file at hok ⊢
  dsimp only at hok ⊢
  cases hm : env.mkdir_ok p
  · rw [hm] at hok
    simp at hok
  · cases ho : env.open_ok p
    · rw [hm, ho] at hok
      simp at hok
    · simp [hm, ho]

/-- Helper: the response callback never touches the registry fields: task
id, recorded output path and installed handle are returned unchanged. -/
theorem response_registry_unchanged (env : Env) (s : WriterState) (flow : Flow) :
    (response env s flow).1.current_task_id = s.current_task_id ∧
    (response env s flow).1.current_file_path = s.current_file_path ∧
    (response env s flow).1.file = s.file := by
  unfold response
  dsimp only
  cases hf : s.file with
  | none => exact ⟨rfl, rfl, hf⟩
  | some h =>
    cases ho : h.isOpen
    · simp [ho, hf]
    · cases hw : env.write_ok h.path
      · simp [ho, hw, hf]
      · simp [ho, hw, hf]

/-- C1 counterexample: from the startup state (no task, default stream
open), switching to t1 in an environment where opening the t1 file fails
does report the failure, but the registry is not left unchanged: the task
id has moved from none to t1 and the previously open default stream has
been closed, refuting the claimed atomic fallback. -/
theorem C1_counterexample :
    (set_output_task failOpenEnv initState "t1").2 = false ∧
    initState.current_task_id = none ∧
    (set_output_task failOpenEnv initState "t1").1.current_task_id = some "t1" ∧
    initState.file = some { path := default_output_path, isOpen := true } ∧
    (set_output_task failOpenEnv initState "t1").1.file =
      some { path := default_output_path, isOpen := false } := by
  refine ⟨by decide, by decide, by decide, by decide, by decide⟩

/-- C1 (amended): a directory-creation or open failure during a switch is
reported but not atomic: by the time it is raised the previous stream has
already been closed and the task id already updated, so the registry is
left torn (new task id, stale output path, closed handle); file contents
are untouched, the control-plane caller gets HTTP 500 rather than success,
and every subsequent data-plane record is dropped until a later successful
switch or clear, i.e. the data plane is left with no destination. -/
theorem C1_failed_switch_not_atomic (env : Env) (s : WriterState) (t : String) :
    ((set_output_task env s t).2 = false →
      (set_output_task env s t).1.current_task_id = some t ∧
      (set_output_task env s t).1.current_file_path = s.current_file_path ∧
      (set_output_task env s t).1.file =
        s.file.map (fun h => { h with isOpen := false }) ∧
      (set_output_task env s t).1.fs = s.fs ∧
      (t ≠ "" → (do_POST env s "/set_output" [("task_id", t)]).2.status = 500) ∧
      (∀ flow, (response env (set_output_task env s t).1 flow).2 = false)) ∧
    ((clear_output_task env s).2 = false →
      (clear_output_task env s).1.current_task_id = none ∧
      (clear_output_task env s).1.current_file_path = s.current_file_path ∧
      (clear_output_task env s).1.file =
        s.file.map (fun h => { h with isOpen := false }) ∧
      (do_POST env s "/clear_output" []).2.status = 500) := by
  constructor
  · intro hfail
    have h1 : (set_output_task env s t).1 =
        { s with current_task_id := some t,
                 file := s.file.map (fun h => { h with isOpen := false }) } := by
      unfold set_output_task at hfail ⊢
      exact open_file_fail_state env _ (task_path t) hfail
    refine ⟨by rw [h1], by rw [h1], by rw [h1], by rw [h1], ?_, ?_⟩
    · intro ht
      simp only [do_POST, jsonGet]
      simp [ht, hfail]
    · intro flow
      rw [h1]
      unfold response
      dsimp only
      cases hf : s.file with
      | none => rfl
      | some h => simp
  · intro hfail
    have h1 : (clear_output_task env s).1 =
        { s with current_task_id := none,
                 file := s.file.map (fun h => { h with isOpen := false }) } := by
      unfold clear_output_task at hfail ⊢
      exact open_file_fail_state env _ default_output_path hfail
    refine ⟨by rw [h1], by rw [h1], by rw [h1], ?_⟩
    simp [do_POST, hfail]

/-- C1 witness: the amended statement instantiated at the startup state,
for a switch in the environment that fails to open the t1 file and for a
clear in the environment that fails to open the default file. -/
theorem C1_failed_switch_not_atomic_witness :
    (set_output_task failOpenEnv initState "t1").1.current_task_id = some "t1" ∧
    (do_POST failOpenEnv initState "/set_output" [("task_id", "t1")]).2.status = 500 ∧
    (do_POST failDefaultEnv initState "/clear_output" []).2.status = 500 :=
  ⟨((C1_failed_switch_not_atomic failOpenEnv initState "t1").1 (by decide)).1,
   ((C1_failed_switch_not_atomic failOpenEnv initState "t1").1 (by decide)).2.2.2.2.1
     (by decide),
   ((C1_failed_switch_not_atomic failDefaultEnv initState "t1").2 (by decide)).2.2.2⟩

/-- C2 counterexample: the startup state satisfies the path-matches-task
invariant, but after a switch to t1 whose open fails the state observable
outside the critical section violates it: the task id is t1 while the
installed path is still the default one, refuting preservation by every
operation. -/
theorem C2_counterexample :
    StateInv initState ∧ ¬ StateInv (set_output_task failOpenEnv initState "t1").1 := by
  constructor
  · unfold StateInv
    decide
  · unfold StateInv
    decide

/-- C2 (amended): the invariant that the installed output path is exactly
the path implied by the current task id holds after every successfully
completing switch or clear, from any prior state, and the data-plane write
preserves it; only a failed switch or clear can break it, until the next
successful operation restores it. -/
theorem C2_inv_preserved (env : Env) (s : WriterState) (t : String) (flow : Flow) :
    ((set_output_task env s t).2 = true → StateInv (set_output_task env s t).1) ∧
    ((clear_output_task env s).2 = true → StateInv (clear_output_task env s).1) ∧
    (StateInv s → StateInv (response env s flow).1) := by
  refine ⟨?_, ?_, ?_⟩
  · intro hok
    unfold set_output_task at hok ⊢
    rw [open_file_ok_state env _ (task_path t) hok]
    unfold StateInv impliedPath
    rfl
  · intro hok
    unfold clear_output_task at hok ⊢
    rw [open_file_ok_state env _ default_output_path hok]
    unfold StateInv impliedPath
    rfl
  · intro hinv
    unfold StateInv at hinv ⊢
    rw [(response_registry_unchanged env s flow).1,
        (response_registry_unchanged env s flow).2.1]
    exact hinv

/-- C2 witness: the amended statement instantiated with a successful switch
to t1 from the startup state. -/
theorem C2_inv_preserved_witness :
    StateInv (set_output_task okEnv initState "t1").1 :=
  (C2_inv_preserved okEnv initState "t1" sampleFlow).1 (by decide)

/-- C3: for every non-empty task id t, whenever set_output_task t completes
successfully, the snapshot returned by get_current_task is the pair of t
and the interpolated task path. -/
theorem C3_snapshot_after_switch (env : Env) (s : WriterState) (t : String)
    (ht : t ≠ "") (hok : (set_output_task env s t).2 = true) :
    get_current_task (set_output_task env s t).1 =
      (some t, some ("/results/" ++ t ++ "/flows.jsonl")) := by
  unfold set_output_task _open_file at hok ⊢
  dsimp only at hok ⊢
  cases hm : env.mkdir_ok (task_path t)
  · rw [hm] at hok
    simp at hok
  · cases ho : env.open_ok (task_path t)
    · rw [hm, ho] at hok
      simp at hok
    · simp [hm, ho, get_current_task, task_path]

/-- C3 witness: switching to job-42 in the all-succeeding environment
yields the snapshot of job-42 and its task file path. -/
theorem C3_snapshot_after_switch_witness :
    get_current_task (set_output_task okEnv initState "job-42").1 =
      (some "job-42", some "/results/job-42/flows.jsonl") :=
  C3_snapshot_after_switch okEnv initState "job-42" (by decide) (by decide)

/-- C4: whenever clear_output_task completes successfully the snapshot is
none paired with the default path, and in an environment where the default
file opens, clear_output_task succeeds from every state, in particular when
no task is currently active. -/
theorem C4_clear_to_default (env : Env) (s : WriterState) :
    ((clear_output_task env s).2 = true →
      get_current_task (clear_output_task env s).1 = (none, some default_output_path)) ∧
    (clear_output_task okEnv s).2 = true := by
  constructor
  · intro hok
    unfold clear_output_task _open_file at hok ⊢
    dsimp only at hok ⊢
    cases hm : env.mkdir_ok default_output_path
    · rw [hm] at hok
      simp at hok
    · cases ho : env.open_ok default_output_path
      · rw [hm, ho] at hok
        simp at hok
      · simp [hm, ho, get_current_task]
  · rfl

/-- C4 witness: clearing from the startup state, which has no active task,
succeeds and snapshots to the default path. -/
theorem C4_clear_to_default_witness :
    get_current_task (clear_output_task okEnv initState).1 =
      (none, some default_output_path) :=
  (C4_clear_to_default okEnv initState).1 (C4_clear_to_default okEnv initState).2

/-- C9: every open performed by the registry is in append mode, so neither
set_output_task nor clear_output_task nor startup changes any file content,
whatever the environment and whether or not they succeed (in particular
repeated switches to the same id never truncate), and a data-plane write
only ever extends a file: every file content after response is the old
content followed by some (possibly empty) list of appended records. -/
theorem C9_append_only (env : Env) (s : WriterState) (t : String) (flow : Flow) :
    (set_output_task env s t).1.fs = s.fs ∧
    (clear_output_task env s).1.fs = s.fs ∧
    (initWriter env).1.fs = (fun _ => []) ∧
    ∀ q, ∃ tail, (response env s flow).1.fs q = s.fs q ++ tail := by
  refine ⟨?_, ?_, ?_, ?_⟩
  · unfold set_output_task _open_file
    dsimp only
    cases env.mkdir_ok (task_path t) <;> cases env.open_ok (task_path t) <;> rfl
  · unfold clear_output_task _open_file
    dsimp only
    cases env.mkdir_ok default_output_path <;> cases env.open_ok default_output_path <;> rfl
  · unfold initWriter _open_file
    dsimp only
    cases env.mkdir_ok default_output_path <;> cases env.open_ok default_output_path <;> rfl
  · intro q
    unfold response
    dsimp only
    cases hf : s.file with
    | none => exact ⟨[], by simp⟩
    | some h =>
      cases ho : h.isOpen
      · exact ⟨[], by simp [ho]⟩
      · cases hw : env.write_ok h.path
        · exact ⟨[], by simp [ho, hw]⟩
        · by_cases hq : q = h.path
          · refine ⟨[buildRecord s.current_task_id flow], ?_⟩
            simp [ho, hw, hq]
          · exact ⟨[], by simp [ho, hw, hq]⟩

/-- C5: the record built for every observed flow carries exactly the keys
ts, method, scheme, host, port, path, url, in that order, with task_id
appended exactly when the captured task is truthy; when a task id t is
active the entry is the pair of task_id and the string t, and when no task
is active no task_id entry of any value (in particular not a null one) is
present, i.e. the field is omitted entirely. -/
theorem C5_record_fields (task : Option String) (flow : Flow) :
    ((buildRecord task flow).map Prod.fst =
      if truthy task then ["ts", "method", "scheme", "host", "port", "path", "url", "task_id"]
      else ["ts", "method", "scheme", "host", "port", "path", "url"]) ∧
    (∀ t, task = some t → t ≠ "" → ("task_id", JVal.jstr t) ∈ buildRecord task flow) ∧
    (truthy task = false → ∀ v, ("task_id", v) ∉ buildRecord task flow) := by
  cases task with
  | none =>
    refine ⟨rfl, ?_, ?_⟩
    · intro t h
      exact absurd h (by simp)
    · intro _ v
      simp [buildRecord]
  | some t =>
    by_cases ht : t = ""
    · subst ht
      refine ⟨rfl, ?_, ?_⟩
      · intro t' h h'
        exact absurd (Option.some_inj.mp h).symm h'
      · intro _ v
        simp [buildRecord]
    · refine ⟨?_, ?_, ?_⟩
      · simp [buildRecord, truthy, ht]
      · intro t' h h'
        rw [Option.some_inj] at h
        subst h
        simp [buildRecord, ht]
      · intro habs
        rw [show truthy (some t) = true by simp [truthy, ht]] at habs
        exact absurd habs (by simp)

/-- C5 witness: with task t1 active the record of the sample flow contains
the task_id entry with value t1, and with no task active it contains no
task_id entry of any value. -/
theorem C5_record_fields_witness :
    ("task_id", JVal.jstr "t1") ∈ buildRecord (some "t1") sampleFlow ∧
    ∀ v, ("task_id", v) ∉ buildRecord none sampleFlow :=
  ⟨(C5_record_fields (some "t1") sampleFlow).2.1 "t1" rfl (by decide),
   (C5_record_fields none sampleFlow).2.2 rfl⟩

/-- C6: on POST /set_output a missing or empty task_id yields 400 with the
error body and leaves the writer state untouched, while a non-empty
task_id t whose switch completes yields 200 with the ok body and moves the
state to the result of set_output_task t. -/
theorem C6_set_output_http (env : Env) (s : WriterState) (data : List (String × String)) :
    ((jsonGet data "task_id" = none ∨ jsonGet data "task_id" = some "") →
      do_POST env s "/set_output" data =
        (s, { status := 400, body := [("error", JVal.jstr "task_id required")] })) ∧
    (∀ t, jsonGet data "task_id" = some t → t ≠ "" →
      (set_output_task env s t).2 = true →
      do_POST env s "/set_output" data =
        ((set_output_task env s t).1,
          { status := 200, body := [("status", JVal.jstr "ok"), ("task_id", JVal.jstr t)] })) := by
  constructor
  · rintro (hnone | hempty)
    · simp [do_POST, hnone]
    · simp [do_POST, hempty]
  · intro t hsome ht hok
    simp [do_POST, hsome, ht, hok]

/-- C6 witness: the empty body yields 400 with unchanged state, and a body
carrying task id t1 yields 200 and the switched state. -/
theorem C6_set_output_http_witness :
    do_POST okEnv initState "/set_output" [] =
      (initState, { status := 400, body := [("error", JVal.jstr "task_id required")] }) ∧
    do_POST okEnv initState "/set_output" [("task_id", "t1")] =
      ((set_output_task okEnv initState "t1").1,
        { status := 200, body := [("status", JVal.jstr "ok"), ("task_id", JVal.jstr "t1")] }) :=
  ⟨(C6_set_output_http okEnv initState []).1 (Or.inl rfl),
   (C6_set_output_http okEnv initState [("task_id", "t1")]).2 "t1" rfl
     (by decide) (by decide)⟩

/-- C7: the data-plane callback is a total function that never lets a
failure escape: whatever the environment does, it hands back a state whose
registry fields (task id, output path, handle) are those it was given, and
whenever it reports that the record was dropped (a caught serialization or
I/O failure) no file content changed either. -/
theorem C7_response_isolated (env : Env) (s : WriterState) (flow : Flow) :
    (response env s flow).1.current_task_id = s.current_task_id ∧
    (response env s flow).1.current_file_path = s.current_file_path ∧
    (response env s flow).1.file = s.file ∧
    ((response env s flow).2 = false → (response env s flow).1.fs = s.fs) := by
  refine ⟨(response_registry_unchanged env s flow).1,
    (response_registry_unchanged env s flow).2.1,
    (response_registry_unchanged env s flow).2.2, ?_⟩
  intro hdrop
  unfold response at hdrop ⊢
  dsimp only at hdrop ⊢
  cases hf : s.file with
  | none => rfl
  | some h =>
    cases ho : h.isOpen
    · simp [ho]
    · cases hw : env.write_ok h.path
      · simp [ho, hw]
      · rw [hf] at hdrop
        simp [ho, hw] at hdrop

/-- C7 witness: with every write failing, the callback on the sample flow
leaves the registry fields and the filesystem of the startup state
untouched. -/
theorem C7_response_isolated_witness :
    (response failWriteEnv initState sampleFlow).1.current_task_id =
      initState.current_task_id ∧
    (response failWriteEnv initState sampleFlow).1.fs = initState.fs :=
  ⟨(C7_response_isolated failWriteEnv initState sampleFlow).1,
   (C7_response_isolated failWriteEnv initState sampleFlow).2.2.2 (by decide)⟩

/-- C8 counterexample: a DELETE request to /set_output is answered by the
standard library dispatch with HTTP 501 Unsupported method, not with the
claimed 404. -/
theorem C8_counterexample :
    (handle_request okEnv initState "DELETE" "/set_output" []).2.status = 501 ∧
    ¬ (handle_request okEnv initState "DELETE" "/set_output" []).2.status = 404 := by
  exact ⟨by decide, by decide⟩

/-- C8 (amended): a POST to a path other than /set_output and
/clear_output and a GET to a path other than /current_task receive a bare
404 with no state change, but a request whose method is neither POST nor
GET receives a bare 501 (Unsupported method, from the standard library
dispatch) with no state change, not a 404. -/
theorem C8_unroutable (env : Env) (s : WriterState) (m p : String)
    (data : List (String × String)) :
    (p ≠ "/set_output" → p ≠ "/clear_output" →
      do_POST env s p data = (s, { status := 404, body := [] })) ∧
    (p ≠ "/current_task" → do_GET s p = (s, { status := 404, body := [] })) ∧
    (m ≠ "POST" → m ≠ "GET" →
      handle_request env s m p data = (s, { status := 501, body := [] })) := by
  refine ⟨?_, ?_, ?_⟩
  · intro h1 h2
    simp [do_POST, h1, h2]
  · intro h1
    simp [do_GET, h1]
  · intro h1 h2
    simp [handle_request, h1, h2]

/-- C8 witness: the amended statement instantiated at an unknown path and
at the PUT method. -/
theorem C8_unroutable_witness :
    do_POST okEnv initState "/nope" [] = (initState, { status := 404, body := [] }) ∧
    do_GET initState "/set_output" = (initState, { status := 404, body := [] }) ∧
    handle_request okEnv initState "PUT" "/set_output" [] =
      (initState, { status := 501, body := [] }) :=
  ⟨(C8_unroutable okEnv initState "PUT" "/nope" []).1 (by decide) (by decide),
   (C8_unroutable okEnv initState "PUT" "/set_output" []).2.1 (by decide),
   (C8_unroutable okEnv initState "PUT" "/set_output" []).2.2 (by decide) (by decide)⟩

/-- C10: the registry interface validates nothing: for every string t,
including the empty string and strings containing slashes, set_output_task
succeeds whenever the filesystem cooperates and installs exactly the raw
interpolation of t into the results path, while the HTTP layer answers 400
to an empty task_id without touching the registry. -/
theorem C10_no_validation (t : String) (s : WriterState) :
    (set_output_task okEnv s t).2 = true ∧
    (set_output_task okEnv s t).1.current_task_id = some t ∧
    (set_output_task okEnv s t).1.current_file_path =
      some ("/results/" ++ t ++ "/flows.jsonl") ∧
    do_POST okEnv s "/set_output" [("task_id", "")] =
      (s, { status := 400, body := [("error", JVal.jstr "task_id required")] }) := by
  refine ⟨rfl, rfl, rfl, ?_⟩
  unfold do_POST jsonGet
  simp
